import Mathlib

/-!
Shallow embedding of the TaskFlex backend (`src/app.py`): a Flask/SQLAlchemy
task-management service with two tables (`User`, `Task`) and six JSON
endpoints.

Modelling choices:
* A parsed JSON request body is an association list of scalar JSON values
  (`Obj`); keys of a parsed Python dict are distinct.  Python's `dict.get`
  returns `None` for an absent key, and an explicit JSON `null` also arrives
  as `None`, so both are `JVal.jnull`.
* The relational store is a pair of row lists with autoincrement counters;
  a committed insert appends, a committed delete filters by primary key.
  The NOT NULL constraints declared on the models (`nullable=False` on
  `user.username/email/password_hash` and on `task.title/user_id`,
  `src/app.py` lines 31-33, 46, 51) are enforced when a handler calls
  `db.session.commit()`: a commit writing a null into such a column raises
  `IntegrityError`, which no handler catches, so Flask answers 500 and the
  session rollback leaves the store unchanged.  Through these handlers only
  `task.title` can actually receive a null — `register` inserts only truthy
  (hence non-null) username/email and a string hash, and `add_task` accepts
  a `userId` only after it matched an existing user's integer id — so the
  commit model checks exactly the columns a null can reach.
* `werkzeug`'s `generate_password_hash` / `check_password_hash` are abstract
  function parameters (`pwhash`, `pwcheck`).
* Each handler is a function from the store and the parsed request to the
  new store (when it can write) plus an HTTP status and a JSON response body.
-/

namespace TaskFlex

/-- Scalar JSON values a handler reads from a request body.  Python's `None`
(absent key via `dict.get`, or an explicit JSON `null`) is `jnull`. -/
inductive JVal where
  | jnull : JVal
  | jstr : String → JVal
  | jbool : Bool → JVal
  | jint : Int → JVal
deriving DecidableEq

/-- A parsed JSON object body (a Python `dict`). -/
abbrev Obj := List (String × JVal)

/-- Key lookup in a parsed body: `some v` when the key is present. -/
def Obj.lookupJ (data : Obj) (k : String) : Option JVal :=
  (data.find? (fun p => p.1 == k)).map (fun p => p.2)

/-- Python `data.get(k)`: the stored value, or `None` when the key is absent. -/
def Obj.getJ (data : Obj) (k : String) : JVal :=
  (data.lookupJ k).getD .jnull

/-- Python `data.get(k, d)`: the stored value, or `d` when the key is absent. -/
def Obj.getDJ (data : Obj) (k : String) (d : JVal) : JVal :=
  (data.lookupJ k).getD d

/-- Python `k in data`. -/
def Obj.hasKey (data : Obj) (k : String) : Bool :=
  (data.lookupJ k).isSome

/-- Python truthiness of the JSON values a handler tests with `if not x`. -/
def truthy : JVal → Bool
  | .jnull => false
  | .jstr s => s != ""
  | .jbool b => b
  | .jint n => n != 0

/-- Row of the `user` table (`class User`, `src/app.py` lines 29-41).
`password_hash` holds `generate_password_hash(password)`. -/
structure User where
  id : Nat
  username : JVal
  email : JVal
  password_hash : String
deriving DecidableEq

/-- Row of the `task` table (`class Task`, `src/app.py` lines 44-66). -/
structure Task where
  id : Nat
  title : JVal
  description : JVal
  due_date : JVal
  priority : JVal
  completed : JVal
  user_id : JVal
deriving DecidableEq

/-- `Task.to_dict` (`src/app.py` lines 56-66). -/
def Task.to_dict (t : Task) : Obj :=
  [("id", .jint t.id), ("title", t.title), ("description", t.description),
   ("dueDate", t.due_date), ("priority", t.priority),
   ("completed", t.completed), ("userId", t.user_id)]

/-- A JSON response body: `jsonify` of a dict or of a list of task dicts —
or, when a handler's `db.session.commit()` raises and nothing catches it,
the framework's generic internal-server-error page (no `jsonify` runs on
that path). -/
inductive Body where
  | obj : Obj → Body
  | arr : List Obj → Body
  | error : Body
deriving DecidableEq

/-- The relational store: the two tables plus autoincrement counters. -/
structure DB where
  users : List User
  tasks : List Task
  next_user_id : Nat
  next_task_id : Nat
deriving DecidableEq

/-- The store right after `init-db`: empty tables. -/
def DB.empty : DB := ⟨[], [], 1, 1⟩

/-- `POST /api/register` (`register`, `src/app.py` lines 72-90). -/
def register (pwhash : JVal → String) (db : DB) (data : Obj) : DB × Nat × Body :=
  let username := data.getJ "username"
  let email := data.getJ "email"
  let password := data.getJ "password"
  if !truthy username || !truthy email || !truthy password then
    (db, 400, .obj [("message", .jstr "Faltam dados obrigatórios")])
  else if db.users.any (fun u => u.username == username)
      || db.users.any (fun u => u.email == email) then
    (db, 409, .obj [("message", .jstr "Usuário ou e-mail já existe")])
  else
    ({ db with
        users := db.users ++ [⟨db.next_user_id, username, email, pwhash password⟩],
        next_user_id := db.next_user_id + 1 },
     201, .obj [("message", .jstr "Usuário criado com sucesso")])

/-- `POST /api/login` (`login`, `src/app.py` lines 93-104); read-only. -/
def login (pwcheck : String → JVal → Bool) (db : DB) (data : Obj) : Nat × Body :=
  let username := data.getJ "username"
  let password := data.getJ "password"
  match db.users.find? (fun u => u.username == username) with
  | some user =>
    if pwcheck user.password_hash password then
      (200, .obj [("message", .jstr "Login bem-sucedido"),
                  ("userId", .jint user.id), ("username", user.username)])
    else
      (401, .obj [("message", .jstr "Credenciais inválidas")])
  | none => (401, .obj [("message", .jstr "Credenciais inválidas")])

/-- `GET /api/users/<int:user_id>/tasks` (`get_user_tasks`, lines 107-114);
read-only.  `User.query.get` is lookup by primary key. -/
def get_user_tasks (db : DB) (user_id : Nat) : Nat × Body :=
  match db.users.find? (fun u => u.id == user_id) with
  | none => (404, .obj [("message", .jstr "Usuário não encontrado")])
  | some _ =>
    (200, .arr ((db.tasks.filter (fun t => t.user_id == JVal.jint user_id)).map
      Task.to_dict))

/-- `POST /api/tasks` (`add_task`, `src/app.py` lines 117-137).
`completed` is not set by the handler, so the column default `False`
applies at insert.  The INSERT writes every column, so the commit raises
`IntegrityError` when the new row carries a null in a `nullable=False`
column (`title`, `user_id`; lines 46, 51): unhandled → 500, rollback, no
row inserted. -/
def add_task (db : DB) (data : Obj) : DB × Nat × Body :=
  if data.isEmpty || !data.hasKey "title" || !data.hasKey "userId" then
    (db, 400, .obj [("message", .jstr "Dados incompletos")])
  else
    let userId := data.getJ "userId"
    match db.users.find? (fun u => JVal.jint u.id == userId) with
    | none => (db, 404, .obj [("message", .jstr "Usuário não encontrado")])
    | some _ =>
      let new_task : Task :=
        ⟨db.next_task_id, data.getJ "title", data.getDJ "description" (.jstr ""),
         data.getJ "dueDate", data.getDJ "priority" (.jstr "medium"),
         .jbool false, userId⟩
      if new_task.title == JVal.jnull || new_task.user_id == JVal.jnull then
        (db, 500, .error)
      else
        ({ db with tasks := db.tasks ++ [new_task],
                   next_task_id := db.next_task_id + 1 },
         201, .obj new_task.to_dict)

/-- The five sequential field assignments of `update_task` (lines 147-151):
`task.f = data.get(key, task.f)`. -/
def Task.updatedWith (t : Task) (data : Obj) : Task :=
  { t with
      title := data.getDJ "title" t.title,
      description := data.getDJ "description" t.description,
      due_date := data.getDJ "dueDate" t.due_date,
      priority := data.getDJ "priority" t.priority,
      completed := data.getDJ "completed" t.completed }

/-- `PUT /api/tasks/<int:task_id>` (`update_task`, `src/app.py` lines 140-154).
The commit persists the mutated row, i.e. replaces the row with that
primary key.  `title` is the only `nullable=False` column among the five
assigned fields (line 46), so a commit of a null title raises
`IntegrityError`: unhandled → 500, rollback, row unchanged. -/
def update_task (db : DB) (task_id : Nat) (data : Obj) : DB × Nat × Body :=
  match db.tasks.find? (fun t => t.id == task_id) with
  | none => (db, 404, .obj [("message", .jstr "Tarefa não encontrada")])
  | some task =>
    let task2 := task.updatedWith data
    if task2.title == JVal.jnull then
      (db, 500, .error)
    else
      ({ db with tasks := db.tasks.map (fun t => if t.id == task_id then task2 else t) },
       200, .obj task2.to_dict)

/-- `DELETE /api/tasks/<int:task_id>` (`delete_task`, lines 157-165).
`db.session.delete(task)` removes the row with that primary key. -/
def delete_task (db : DB) (task_id : Nat) : DB × Nat × Body :=
  match db.tasks.find? (fun t => t.id == task_id) with
  | none => (db, 404, .obj [("message", .jstr "Tarefa não encontrada")])
  | some _ =>
    ({ db with tasks := db.tasks.filter (fun t => !(t.id == task_id)) },
     200, .obj [("message", .jstr "Tarefa deletada com sucesso")])

/-- One request to any of the six endpoints. -/
inductive Op where
  | opRegister (data : Obj)
  | opLogin (data : Obj)
  | opGetUserTasks (user_id : Nat)
  | opAddTask (data : Obj)
  | opUpdateTask (task_id : Nat) (data : Obj)
  | opDeleteTask (task_id : Nat)

/-- Effect of one request on the store (`login` and the task listing are
read-only). -/
def step (pwhash : JVal → String) (db : DB) : Op → DB
  | .opRegister data => (register pwhash db data).1
  | .opLogin _ => db
  | .opGetUserTasks _ => db
  | .opAddTask data => (add_task db data).1
  | .opUpdateTask task_id data => (update_task db task_id data).1
  | .opDeleteTask task_id => (delete_task db task_id).1

/-- The store reached from the empty store by a sequence of requests. -/
def run (pwhash : JVal → String) (ops : List Op) : DB :=
  ops.foldl (step pwhash) DB.empty

/-- The uniqueness invariant of the `user` table: usernames pairwise
distinct, emails pairwise distinct. -/
def users_distinct (db : DB) : Prop :=
  (db.users.map User.username).Nodup ∧ (db.users.map User.email).Nodup

/-! ### Concrete stores and function instances used to exercise the theorems -/

/-- A concrete stand-in for `generate_password_hash`. -/
def pwhashW : JVal → String := fun _ => "W"

/-- A concrete stand-in for `check_password_hash`, matching exactly the
hashes `pwhashW` produces. -/
def pwcheckW : String → JVal → Bool := fun h _ => h == "W"

/-- A store with one registered user `ana` (hash produced by `pwhashW`). -/
def dbAna : DB := ⟨[⟨1, .jstr "ana", .jstr "ana@x.com", "W"⟩], [], 2, 1⟩

/-- A store with one user `ana` whose stored hash `pwcheckW` rejects. -/
def dbBadHash : DB := ⟨[⟨1, .jstr "ana", .jstr "ana@x.com", "X"⟩], [], 2, 1⟩

/-- A store with user `ana` and one of her tasks. -/
def dbAnaTask : DB :=
  ⟨[⟨1, .jstr "ana", .jstr "ana@x.com", "W"⟩],
   [⟨1, .jstr "Buy milk", .jstr "", .jnull, .jstr "medium", .jbool false, .jint 1⟩],
   2, 2⟩

/-! ### Claim theorems -/

/-- C9: a registration request in which `username`, `email` or `password` is
present but equal to the empty string is answered with the missing-fields
error, status 400, and no row is inserted: the handler's `if not username
or not email or not password` tests truthiness, and `""` is falsy. -/
theorem register_empty_string_rejected (pwhash : JVal → String) (db : DB) (data : Obj)
    (h : data.lookupJ "username" = some (.jstr "")
       ∨ data.lookupJ "email" = some (.jstr "")
       ∨ data.lookupJ "password" = some (.jstr "")) :
    register pwhash db data
      = (db, 400, Body.obj [("message", .jstr "Faltam dados obrigatórios")]) := by
  rcases h with h | h | h <;> simp [register, Obj.getJ, h, truthy]

theorem register_empty_string_rejected_witness :
    register pwhashW dbAna
        [("username", .jstr "bob"), ("email", .jstr "b@x.com"), ("password", .jstr "")]
      = (dbAna, 400, Body.obj [("message", .jstr "Faltam dados obrigatórios")]) :=
  register_empty_string_rejected pwhashW dbAna
    [("username", .jstr "bob"), ("email", .jstr "b@x.com"), ("password", .jstr "")]
    (Or.inr (Or.inr rfl))

/-- C4: a login naming a username held by no user and a login naming an
existing username with a non-verifying password produce the identical
response: status 401 with the same generic invalid-credentials body, so the
two failure causes are indistinguishable to the caller. -/
theorem login_failure_indistinguishable (pwcheck : String → JVal → Bool) (db : DB)
    (d1 d2 : Obj) (u : User)
    (h1 : ∀ w ∈ db.users, w.username ≠ d1.getJ "username")
    (h2 : db.users.find? (fun w => w.username == d2.getJ "username") = some u)
    (hbad : pwcheck u.password_hash (d2.getJ "password") = false) :
    login pwcheck db d1 = login pwcheck db d2
    ∧ login pwcheck db d1
        = (401, Body.obj [("message", JVal.jstr "Credenciais inválidas")]) := by
  have hn : db.users.find? (fun w => w.username == d1.getJ "username") = none := by
    rw [List.find?_eq_none]
    intro x hx
    simp [h1 x hx]
  constructor <;> simp [login, hn, h2, hbad]

theorem login_failure_indistinguishable_witness :
    login pwcheckW dbBadHash [("username", .jstr "zoe"), ("password", .jstr "pw")]
      = login pwcheckW dbBadHash [("username", .jstr "ana"), ("password", .jstr "pw")]
    ∧ login pwcheckW dbBadHash [("username", .jstr "zoe"), ("password", .jstr "pw")]
        = (401, Body.obj [("message", JVal.jstr "Credenciais inválidas")]) :=
  login_failure_indistinguishable pwcheckW dbBadHash
    [("username", .jstr "zoe"), ("password", .jstr "pw")]
    [("username", .jstr "ana"), ("password", .jstr "pw")]
    ⟨1, .jstr "ana", .jstr "ana@x.com", "X"⟩
    (by decide) rfl rfl

/-- C7: listing tasks of a user id held by no user is answered 404; for an
existing user it is answered 200 with the serializations of exactly the
tasks whose `user_id` equals the id — the empty array, not an error, when
the user owns none. -/
theorem get_user_tasks_spec (db : DB) (user_id : Nat) :
    ((∀ u ∈ db.users, u.id ≠ user_id) →
      get_user_tasks db user_id
        = (404, Body.obj [("message", .jstr "Usuário não encontrado")]))
    ∧ (∀ u ∈ db.users, u.id = user_id →
      get_user_tasks db user_id
        = (200, Body.arr ((db.tasks.filter
            (fun t => t.user_id == JVal.jint user_id)).map Task.to_dict))
      ∧ ((∀ t ∈ db.tasks, t.user_id ≠ JVal.jint user_id) →
         get_user_tasks db user_id = (200, Body.arr []))) := by
  constructor
  · intro h
    have hn : db.users.find? (fun u => u.id == user_id) = none := by
      rw [List.find?_eq_none]
      intro x hx
      simp [h x hx]
    simp [get_user_tasks, hn]
  · intro u hu hid
    have hs : (db.users.find? (fun u => u.id == user_id)).isSome := by
      rw [List.find?_isSome]
      exact ⟨u, hu, by simp [hid]⟩
    obtain ⟨w, hw⟩ := Option.isSome_iff_exists.mp hs
    constructor
    · simp [get_user_tasks, hw]
    · intro hno
      have hnil : db.tasks.filter (fun t => t.user_id == JVal.jint user_id) = [] := by
        rw [List.filter_eq_nil_iff]
        intro t ht
        simp [hno t ht]
      simp [get_user_tasks, hw, hnil]

theorem get_user_tasks_spec_witness :
    get_user_tasks dbAna 1 = (200, Body.arr [])
    ∧ get_user_tasks dbAna 7
        = (404, Body.obj [("message", .jstr "Usuário não encontrado")]) :=
  ⟨(((get_user_tasks_spec dbAna 1).2 ⟨1, .jstr "ana", .jstr "ana@x.com", "W"⟩
      (by decide) rfl).2 (by decide)),
   (get_user_tasks_spec dbAna 7).1 (by decide)⟩

/-- C1 (amended): a create-task request whose body contains a non-null
`title` and a `userId` referencing an existing user inserts exactly one new
task and is answered 201 with that task's serialization; its `title`,
`userId`, `description`, `dueDate` and `priority` equal the submitted
values, `description` defaults to `""` and `priority` to `"medium"` when
omitted, and `completed` is `false`.  (A present-but-null title instead
fails the `title` column's NOT NULL constraint at commit: 500, no row —
see `add_task_creates_cex`.) -/
theorem add_task_creates (db : DB) (data : Obj) (tv uv : JVal)
    (ht : data.lookupJ "title" = some tv)
    (hu : data.lookupJ "userId" = some uv)
    (hex : ∃ w ∈ db.users, JVal.jint w.id = uv)
    (htn : tv ≠ JVal.jnull) :
    ∃ nt : Task,
      add_task db data
        = ({ db with
              tasks := db.tasks ++ [nt],
              next_task_id := db.next_task_id + 1 },
           201, Body.obj nt.to_dict)
      ∧ nt.title = tv ∧ nt.user_id = uv
      ∧ nt.description = (data.lookupJ "description").getD (JVal.jstr "")
      ∧ nt.priority = (data.lookupJ "priority").getD (JVal.jstr "medium")
      ∧ nt.due_date = (data.lookupJ "dueDate").getD JVal.jnull
      ∧ nt.completed = JVal.jbool false := by
  have hne : data.isEmpty = false := by
    cases data with
    | nil => simp [Obj.lookupJ] at ht
    | cons a l => rfl
  have hk1 : data.hasKey "title" = true := by simp [Obj.hasKey, ht]
  have hk2 : data.hasKey "userId" = true := by simp [Obj.hasKey, hu]
  have hguv : data.getJ "userId" = uv := by simp [Obj.getJ, hu]
  have hgt : data.getJ "title" = tv := by simp [Obj.getJ, ht]
  obtain ⟨w0, hw0, he0⟩ := hex
  have hs : (db.users.find? (fun u => JVal.jint u.id == data.getJ "userId")).isSome := by
    rw [List.find?_isSome]
    exact ⟨w0, hw0, by simp [hguv, he0]⟩
  obtain ⟨w, hw⟩ := Option.isSome_iff_exists.mp hs
  have hviol : (data.getJ "title" == JVal.jnull
      || data.getJ "userId" == JVal.jnull) = false := by
    rw [hgt, hguv, ← he0]
    simp [htn]
  refine ⟨⟨db.next_task_id, data.getJ "title", data.getDJ "description" (.jstr ""),
           data.getJ "dueDate", data.getDJ "priority" (.jstr "medium"),
           .jbool false, data.getJ "userId"⟩, ?_, ?_, ?_, rfl, rfl, rfl, rfl⟩
  · simp [add_task, hne, hk1, hk2, hw, hviol]
  · simp [Obj.getJ, ht]
  · exact hguv

theorem add_task_creates_witness :
    ∃ nt : Task,
      add_task dbAna [("title", .jstr "Buy milk"), ("userId", .jint 1)]
        = ({ dbAna with
              tasks := dbAna.tasks ++ [nt],
              next_task_id := dbAna.next_task_id + 1 },
           201, Body.obj nt.to_dict)
      ∧ nt.title = .jstr "Buy milk" ∧ nt.user_id = .jint 1
      ∧ nt.description
          = (Obj.lookupJ [("title", .jstr "Buy milk"), ("userId", .jint 1)]
              "description").getD (JVal.jstr "")
      ∧ nt.priority
          = (Obj.lookupJ [("title", .jstr "Buy milk"), ("userId", .jint 1)]
              "priority").getD (JVal.jstr "medium")
      ∧ nt.due_date
          = (Obj.lookupJ [("title", .jstr "Buy milk"), ("userId", .jint 1)]
              "dueDate").getD JVal.jnull
      ∧ nt.completed = JVal.jbool false :=
  add_task_creates dbAna [("title", .jstr "Buy milk"), ("userId", .jint 1)]
    (.jstr "Buy milk") (.jint 1) rfl rfl
    ⟨⟨1, .jstr "ana", .jstr "ana@x.com", "W"⟩, by decide, rfl⟩ (by decide)

/-- A create-task body whose `title` key is present but carries JSON
`null`, naming `ana`'s user id. -/
def dataNullTitle : Obj := [("title", .jnull), ("userId", .jint 1)]

/-- C1 counterexample: a body containing `title` (as `null`) and a `userId`
referencing an existing user is not answered 201 with a row inserted — the
commit violates the `title` column's NOT NULL constraint, the request fails
with 500 and the store is unchanged. -/
theorem add_task_creates_cex :
    (dataNullTitle.lookupJ "title").isSome = true
    ∧ (∃ w ∈ dbAna.users, JVal.jint w.id = dataNullTitle.getJ "userId")
    ∧ (add_task dbAna dataNullTitle).2.1 = 500
    ∧ (add_task dbAna dataNullTitle).2.1 ≠ 201
    ∧ (add_task dbAna dataNullTitle).1 = dbAna := by
  decide

/-- C2 (amended): an update on an existing task whose resulting title is
not null overwrites each of the five recognized fields present in the
body, keeps each absent field (the `Option.getD` equations cover both
cases), and is answered 200 with the updated task's serialization; with an
empty body the store is unchanged and the response is still 200 with the
task unchanged.  (A body carrying `title: null` instead makes the commit
violate the `title` column's NOT NULL constraint: 500, row unchanged — see
`update_task_merges_cex`.) -/
theorem update_task_merges (db : DB) (task_id : Nat) (data : Obj) (t : Task)
    (hfind : db.tasks.find? (fun x => x.id == task_id) = some t)
    (hnd : (db.tasks.map Task.id).Nodup)
    (htn : (t.updatedWith data).title ≠ JVal.jnull) :
    update_task db task_id data
      = ({ db with
            tasks := db.tasks.map
              (fun x => if x.id == task_id then t.updatedWith data else x) },
         200, Body.obj (t.updatedWith data).to_dict)
    ∧ (t.updatedWith data).title = (data.lookupJ "title").getD t.title
    ∧ (t.updatedWith data).description
        = (data.lookupJ "description").getD t.description
    ∧ (t.updatedWith data).due_date = (data.lookupJ "dueDate").getD t.due_date
    ∧ (t.updatedWith data).priority = (data.lookupJ "priority").getD t.priority
    ∧ (t.updatedWith data).completed
        = (data.lookupJ "completed").getD t.completed
    ∧ (t.updatedWith data).id = t.id ∧ (t.updatedWith data).user_id = t.user_id
    ∧ (data = [] → update_task db task_id data = (db, 200, Body.obj t.to_dict)) := by
  have hviol : ((t.updatedWith data).title == JVal.jnull) = false := by
    rw [beq_eq_false_iff_ne]
    exact htn
  refine ⟨by simp [update_task, hfind, hviol], rfl, rfl, rfl, rfl, rfl, rfl, rfl, ?_⟩
  rintro rfl
  have heta : t.updatedWith [] = t := rfl
  have hmem : t ∈ db.tasks := List.mem_of_find?_eq_some hfind
  have hpt : t.id = task_id := by
    have := List.find?_some hfind
    simpa using this
  have hmap : db.tasks.map (fun x => if x.id = task_id then t else x) = db.tasks := by
    have h1 : ∀ x ∈ db.tasks, (if x.id = task_id then t else x) = id x := by
      intro x hx
      by_cases hxe : x.id = task_id
      · have hxt : x = t :=
          List.inj_on_of_nodup_map hnd hx hmem (by rw [hxe, hpt])
        simp [hxe, hxt]
      · simp [hxe]
    rw [List.map_congr_left h1, List.map_id]
  simp [update_task, hfind, heta, hmap]
  exact htn

theorem update_task_merges_witness :
    update_task dbAnaTask 1 [("completed", .jbool true)]
      = ({ dbAnaTask with
            tasks := dbAnaTask.tasks.map
              (fun x => if x.id == 1 then
              Task.updatedWith
                ⟨1, .jstr "Buy milk", .jstr "", .jnull, .jstr "medium",
                 .jbool false, .jint 1⟩ [("completed", .jbool true)] else x) },
         200, Body.obj (Task.updatedWith
                ⟨1, .jstr "Buy milk", .jstr "", .jnull, .jstr "medium",
                 .jbool false, .jint 1⟩ [("completed", .jbool true)]).to_dict)
    ∧ (Task.updatedWith
        ⟨1, .jstr "Buy milk", .jstr "", .jnull, .jstr "medium",
         .jbool false, .jint 1⟩ [("completed", .jbool true)]).completed
        = (Obj.lookupJ [("completed", .jbool true)] "completed").getD
            (JVal.jbool false) :=
  ⟨(update_task_merges dbAnaTask 1 [("completed", .jbool true)]
      ⟨1, .jstr "Buy milk", .jstr "", .jnull, .jstr "medium",
       .jbool false, .jint 1⟩ rfl (by decide) (by decide)).1,
   (update_task_merges dbAnaTask 1 [("completed", .jbool true)]
      ⟨1, .jstr "Buy milk", .jstr "", .jnull, .jstr "medium",
       .jbool false, .jint 1⟩ rfl (by decide) (by decide)).2.2.2.2.2.1⟩

/-- An update body carrying an explicit null `title`. -/
def dataNullTitleOnly : Obj := [("title", .jnull)]

/-- C2 counterexample: on an existing task, an update whose body carries
the recognized field `title` with value `null` is not answered 200 with
the value overwritten — the commit violates the `title` column's NOT NULL
constraint, the request fails with 500 and the store is unchanged. -/
theorem update_task_merges_cex :
    (∃ t ∈ dbAnaTask.tasks, t.id = 1)
    ∧ (dataNullTitleOnly.lookupJ "title").isSome = true
    ∧ (update_task dbAnaTask 1 dataNullTitleOnly).2.1 = 500
    ∧ (update_task dbAnaTask 1 dataNullTitleOnly).2.1 ≠ 200
    ∧ (update_task dbAnaTask 1 dataNullTitleOnly).1 = dbAnaTask := by
  decide

/-- C10 (amended): on an existing task, `data.get(key, current)`
distinguishes only key absence, so an explicit JSON `null` for a
recognized field is assigned as the new value; for the nullable columns
(`description`, `dueDate`, `priority`, `completed`) the null is stored and
— provided the resulting title is not null — the update succeeds with 200,
so a null `description` or `dueDate` clears the stored value.  For `title`
the assigned null violates the column's NOT NULL constraint at commit: the
request fails with 500 and the row is unchanged. -/
theorem update_task_null_clears (db : DB) (task_id : Nat) (data : Obj) (t : Task)
    (hfind : db.tasks.find? (fun x => x.id == task_id) = some t) :
    ((t.updatedWith data).title ≠ JVal.jnull →
      update_task db task_id data
        = ({ db with
              tasks := db.tasks.map
                (fun x => if x.id == task_id then t.updatedWith data else x) },
           200, Body.obj (t.updatedWith data).to_dict))
    ∧ (data.lookupJ "description" = some .jnull →
        (t.updatedWith data).description = .jnull)
    ∧ (data.lookupJ "dueDate" = some .jnull →
        (t.updatedWith data).due_date = .jnull)
    ∧ (data.lookupJ "priority" = some .jnull →
        (t.updatedWith data).priority = .jnull)
    ∧ (data.lookupJ "completed" = some .jnull →
        (t.updatedWith data).completed = .jnull)
    ∧ (data.lookupJ "title" = some .jnull →
        update_task db task_id data = (db, 500, Body.error)) := by
  refine ⟨?_, ?_, ?_, ?_, ?_, ?_⟩
  · intro htn
    have hviol : ((t.updatedWith data).title == JVal.jnull) = false := by
      rw [beq_eq_false_iff_ne]
      exact htn
    simp [update_task, hfind, hviol]
  · intro h
    simp [Task.updatedWith, Obj.getDJ, h]
  · intro h
    simp [Task.updatedWith, Obj.getDJ, h]
  · intro h
    simp [Task.updatedWith, Obj.getDJ, h]
  · intro h
    simp [Task.updatedWith, Obj.getDJ, h]
  · intro h
    have hnull : (t.updatedWith data).title = JVal.jnull := by
      simp [Task.updatedWith, Obj.getDJ, h]
    have hviol : ((t.updatedWith data).title == JVal.jnull) = true := by
      simp [hnull]
    simp [update_task, hfind, hviol]

/-- An update body nulling both `title` and `description`. -/
def dataNullTitleDesc : Obj := [("title", .jnull), ("description", .jnull)]

/-- C10 counterexample: on an existing task, a body carrying the
recognized field `title` with value `null` does not get the stored value
overwritten with null — the commit violates the `title` column's NOT NULL
constraint, the request fails with 500 and the store (including the
likewise-nulled `description`) is unchanged. -/
theorem update_task_null_clears_cex :
    (∃ t ∈ dbAnaTask.tasks, t.id = 1)
    ∧ dataNullTitleDesc.lookupJ "title" = some .jnull
    ∧ (update_task dbAnaTask 1 dataNullTitleDesc).1 = dbAnaTask
    ∧ (update_task dbAnaTask 1 dataNullTitleDesc).2.1 = 500 := by
  decide

theorem update_task_null_clears_witness :
    update_task dbAnaTask 1 [("description", .jnull), ("dueDate", .jnull)]
      = ({ dbAnaTask with
            tasks := dbAnaTask.tasks.map
              (fun x => if x.id == 1 then
              Task.updatedWith
                ⟨1, .jstr "Buy milk", .jstr "", .jnull, .jstr "medium",
                 .jbool false, .jint 1⟩
                [("description", .jnull), ("dueDate", .jnull)] else x) },
         200, Body.obj (Task.updatedWith
                ⟨1, .jstr "Buy milk", .jstr "", .jnull, .jstr "medium",
                 .jbool false, .jint 1⟩
                [("description", .jnull), ("dueDate", .jnull)]).to_dict)
    ∧ (Task.updatedWith
        ⟨1, .jstr "Buy milk", .jstr "", .jnull, .jstr "medium",
         .jbool false, .jint 1⟩
        [("description", .jnull), ("dueDate", .jnull)]).description = .jnull :=
  ⟨(update_task_null_clears dbAnaTask 1
      [("description", .jnull), ("dueDate", .jnull)]
      ⟨1, .jstr "Buy milk", .jstr "", .jnull, .jstr "medium",
       .jbool false, .jint 1⟩ rfl).1 (by decide),
   (update_task_null_clears dbAnaTask 1
      [("description", .jnull), ("dueDate", .jnull)]
      ⟨1, .jstr "Buy milk", .jstr "", .jnull, .jstr "medium",
       .jbool false, .jint 1⟩ rfl).2.1 rfl⟩

/-- A registration body naming `ana`'s username but carrying no password. -/
def dataDupNoPw : Obj := [("username", .jstr "ana"), ("email", .jstr "b@x.com")]

/-- A complete registration body naming `ana`'s username. -/
def dataDup : Obj :=
  [("username", .jstr "ana"), ("email", .jstr "new@x.com"), ("password", .jstr "pw")]

/-- C3 counterexample: in a store where a user already has the submitted
username, a registration request that lacks a password is answered 400 by
the presence check, not 409 — the claim's unconditional 409 fails. -/
theorem register_duplicate_cex :
    (∃ u ∈ dbAna.users, u.username = dataDupNoPw.getJ "username")
    ∧ (register pwhashW dbAna dataDupNoPw).2.1 = 400
    ∧ (register pwhashW dbAna dataDupNoPw).2.1 ≠ 409 := by
  decide

/-- C3 amended: in a store where some user already has the submitted
username or email, registration never inserts a row; and when the request
additionally passes the presence check (username, email and password all
present and truthy), it is answered 409 with the conflict body. -/
theorem register_duplicate_conflict (pwhash : JVal → String) (db : DB) (data : Obj)
    (hdup : (∃ u ∈ db.users, u.username = data.getJ "username")
          ∨ (∃ u ∈ db.users, u.email = data.getJ "email")) :
    (register pwhash db data).1 = db
    ∧ (truthy (data.getJ "username") = true →
       truthy (data.getJ "email") = true →
       truthy (data.getJ "password") = true →
       register pwhash db data
         = (db, 409, Body.obj [("message", .jstr "Usuário ou e-mail já existe")])) := by
  have hany : (db.users.any (fun u => u.username == data.getJ "username")
            || db.users.any (fun u => u.email == data.getJ "email")) = true := by
    simp only [Bool.or_eq_true, List.any_eq_true]
    rcases hdup with ⟨u, hu, he⟩ | ⟨u, hu, he⟩
    · exact Or.inl ⟨u, hu, by simp [he]⟩
    · exact Or.inr ⟨u, hu, by simp [he]⟩
  cases hg : (!truthy (data.getJ "username") || !truthy (data.getJ "email")
      || !truthy (data.getJ "password")) with
  | true =>
    refine ⟨by simp [register, hg], ?_⟩
    intro h1 h2 h3
    rw [h1, h2, h3] at hg
    simp at hg
  | false =>
    exact ⟨by simp [register, hg, hany], fun _ _ _ => by simp [register, hg, hany]⟩

theorem register_duplicate_conflict_witness :
    (register pwhashW dbAna dataDup).1 = dbAna
    ∧ (truthy (dataDup.getJ "username") = true →
       truthy (dataDup.getJ "email") = true →
       truthy (dataDup.getJ "password") = true →
       register pwhashW dbAna dataDup
         = (dbAna, 409, Body.obj [("message", .jstr "Usuário ou e-mail já existe")])) :=
  register_duplicate_conflict pwhashW dbAna dataDup
    (Or.inl ⟨⟨1, .jstr "ana", .jstr "ana@x.com", "W"⟩, by decide, rfl⟩)

/-- Under distinct primary keys, removing the rows whose id equals the key
of a present row `t` removes exactly `t`. -/
theorem filter_ne_eq_erase {l : List Task} {t : Task} {task_id : Nat}
    (hnd : (l.map Task.id).Nodup) (hmem : t ∈ l) (hid : t.id = task_id) :
    l.filter (fun x => !(x.id == task_id)) = l.erase t := by
  induction l with
  | nil => cases hmem
  | cons x xs ih =>
    rw [List.map_cons, List.nodup_cons] at hnd
    obtain ⟨hx, hnd2⟩ := hnd
    rcases List.mem_cons.mp hmem with rfl | hm
    · have hfe : xs.filter (fun y => !(y.id == task_id)) = xs := by
        rw [List.filter_eq_self]
        intro y hy
        have hne : y.id ≠ task_id := by
          intro hc
          exact hx (hid ▸ hc ▸ List.mem_map_of_mem Task.id hy)
        simp [hne]
      rw [List.filter_cons_of_neg (by simp [hid]), List.erase_cons_head, hfe]
    · have hxid : x.id ≠ task_id := by
        intro hc
        apply hx
        rw [hc, ← hid]
        exact List.mem_map_of_mem Task.id hm
      have hxt : ¬(x == t) := by
        simp only [beq_iff_eq]
        intro hc
        exact hxid (by rw [hc, hid])
      rw [List.filter_cons_of_pos (by simp [hxid]), List.erase_cons_tail hxt,
        ih hnd2 hm]

/-- C6: deleting an existing task id removes exactly that row and is
answered 200 with the confirmation message; an immediately repeated delete
of the same id is answered 404 with the store unchanged; and deleting an id
held by no task is answered 404 with the store unchanged. -/
theorem delete_task_spec (db : DB) (task_id : Nat)
    (hnd : (db.tasks.map Task.id).Nodup) :
    ((∀ t ∈ db.tasks, t.id ≠ task_id) →
      delete_task db task_id
        = (db, 404, Body.obj [("message", .jstr "Tarefa não encontrada")]))
    ∧ (∀ t ∈ db.tasks, t.id = task_id →
      delete_task db task_id
        = ({ db with tasks := db.tasks.erase t }, 200,
           Body.obj [("message", .jstr "Tarefa deletada com sucesso")])
      ∧ delete_task { db with tasks := db.tasks.erase t } task_id
        = ({ db with tasks := db.tasks.erase t }, 404,
           Body.obj [("message", .jstr "Tarefa não encontrada")])) := by
  constructor
  · intro h
    have hn : db.tasks.find? (fun t => t.id == task_id) = none := by
      rw [List.find?_eq_none]
      intro x hx
      simp [h x hx]
    simp [delete_task, hn]
  · intro t hmem hid
    have hs : (db.tasks.find? (fun t => t.id == task_id)).isSome := by
      rw [List.find?_isSome]
      exact ⟨t, hmem, by simp [hid]⟩
    obtain ⟨w, hw⟩ := Option.isSome_iff_exists.mp hs
    have hfe := filter_ne_eq_erase hnd hmem hid
    constructor
    · rw [← hfe]
      simp [delete_task, hw]
    · have hn2 : (db.tasks.erase t).find? (fun x => x.id == task_id) = none := by
        rw [List.find?_eq_none]
        intro x hx
        rw [← hfe] at hx
        have hx2 := List.mem_filter.mp hx
        simpa using hx2.2
      simp [delete_task, hn2]

/-- The single task row of `dbAnaTask`. -/
def taskMilk : Task :=
  ⟨1, .jstr "Buy milk", .jstr "", .jnull, .jstr "medium", .jbool false, .jint 1⟩

theorem delete_task_spec_witness :
    delete_task dbAnaTask 1
      = ({ dbAnaTask with tasks := dbAnaTask.tasks.erase taskMilk }, 200,
         Body.obj [("message", .jstr "Tarefa deletada com sucesso")])
    ∧ delete_task { dbAnaTask with tasks := dbAnaTask.tasks.erase taskMilk } 1
      = ({ dbAnaTask with tasks := dbAnaTask.tasks.erase taskMilk }, 404,
         Body.obj [("message", .jstr "Tarefa não encontrada")]) :=
  (delete_task_spec dbAnaTask 1 (by decide)).2 taskMilk (by decide) rfl

/-- C5: if registration with a given username, email and password succeeds
(status 201), then — given that the hash-verify pair accepts the hash of
that password — a subsequent login with the same username and password
succeeds with status 200 and returns the identifier and username of the
user that registration created. -/
theorem register_then_login (pwhash : JVal → String) (pwcheck : String → JVal → Bool)
    (db db2 : DB) (u e p : String) (b : Body)
    (hreg : register pwhash db
        [("username", .jstr u), ("email", .jstr e), ("password", .jstr p)]
      = (db2, 201, b))
    (hcheck : pwcheck (pwhash (.jstr p)) (.jstr p) = true) :
    ∃ nu : User,
      db2.users = db.users ++ [nu]
      ∧ nu.id = db.next_user_id ∧ nu.username = .jstr u
      ∧ login pwcheck db2 [("username", .jstr u), ("password", .jstr p)]
        = (200, Body.obj [("message", .jstr "Login bem-sucedido"),
                          ("userId", .jint nu.id), ("username", .jstr u)]) := by
  have hgu : Obj.getJ [("username", JVal.jstr u), ("email", JVal.jstr e),
      ("password", JVal.jstr p)] "username" = JVal.jstr u := rfl
  have hge : Obj.getJ [("username", JVal.jstr u), ("email", JVal.jstr e),
      ("password", JVal.jstr p)] "email" = JVal.jstr e := rfl
  have hgp : Obj.getJ [("username", JVal.jstr u), ("email", JVal.jstr e),
      ("password", JVal.jstr p)] "password" = JVal.jstr p := rfl
  simp only [register, hgu, hge, hgp] at hreg
  cases hg1 : (!truthy (JVal.jstr u) || !truthy (JVal.jstr e)
      || !truthy (JVal.jstr p)) with
  | true =>
    rw [hg1] at hreg
    simp at hreg
  | false =>
    rw [hg1] at hreg
    cases hg2 : (db.users.any (fun w => w.username == JVal.jstr u)
        || db.users.any (fun w => w.email == JVal.jstr e)) with
    | true =>
      rw [hg2] at hreg
      simp at hreg
    | false =>
      rw [hg2] at hreg
      simp only [Bool.false_eq_true, if_false] at hreg
      have hdb2 : db2 = { db with
          users := db.users ++
            [⟨db.next_user_id, JVal.jstr u, JVal.jstr e, pwhash (JVal.jstr p)⟩],
          next_user_id := db.next_user_id + 1 } := (congrArg Prod.fst hreg).symm
      subst hdb2
      refine ⟨⟨db.next_user_id, JVal.jstr u, JVal.jstr e, pwhash (JVal.jstr p)⟩,
        rfl, rfl, rfl, ?_⟩
      have hgu2 : Obj.getJ [("username", JVal.jstr u), ("password", JVal.jstr p)]
          "username" = JVal.jstr u := rfl
      have hgp2 : Obj.getJ [("username", JVal.jstr u), ("password", JVal.jstr p)]
          "password" = JVal.jstr p := rfl
      have ha1 : db.users.any (fun w => w.username == JVal.jstr u) = false :=
        (Bool.or_eq_false_iff.mp hg2).1
      have hn : db.users.find? (fun w => w.username == JVal.jstr u) = none := by
        rw [List.find?_eq_none]
        intro x hx
        have hx2 := List.any_eq_false.mp ha1 x hx
        simpa using hx2
      simp only [login, hgu2, hgp2]
      rw [List.find?_append, hn]
      simp [hcheck]

theorem register_then_login_witness :
    ∃ nu : User,
      dbAna.users = DB.empty.users ++ [nu]
      ∧ nu.id = DB.empty.next_user_id ∧ nu.username = .jstr "ana"
      ∧ login pwcheckW dbAna [("username", .jstr "ana"), ("password", .jstr "pw1")]
        = (200, Body.obj [("message", .jstr "Login bem-sucedido"),
                          ("userId", .jint nu.id), ("username", .jstr "ana")]) :=
  register_then_login pwhashW pwcheckW DB.empty dbAna "ana" "ana@x.com" "pw1"
    (Body.obj [("message", .jstr "Usuário criado com sucesso")]) rfl rfl

/-- `add_task` never touches the `user` table. -/
theorem add_task_users_eq (db : DB) (data : Obj) :
    (add_task db data).1.users = db.users := by
  simp only [add_task]
  split
  · rfl
  · split
    · rfl
    · split
      · rfl
      · rfl

/-- `update_task` never touches the `user` table. -/
theorem update_task_users_eq (db : DB) (task_id : Nat) (data : Obj) :
    (update_task db task_id data).1.users = db.users := by
  simp only [update_task]
  split
  · rfl
  · split
    · rfl
    · rfl

/-- `delete_task` never touches the `user` table. -/
theorem delete_task_users_eq (db : DB) (task_id : Nat) :
    (delete_task db task_id).1.users = db.users := by
  simp only [delete_task]
  split
  · rfl
  · rfl

/-- `register` inserts only after its duplicate check fails to find a
match, so it preserves the uniqueness invariant. -/
theorem register_preserves_users_distinct (pwhash : JVal → String) (db : DB)
    (data : Obj) (h : users_distinct db) :
    users_distinct (register pwhash db data).1 := by
  simp only [register]
  split
  · exact h
  · split
    · exact h
    · next hc =>
      rw [Bool.not_eq_true, Bool.or_eq_false_iff] at hc
      obtain ⟨ha1, ha2⟩ := hc
      obtain ⟨h1, h2⟩ := h
      constructor
      · simp only [List.map_append, List.map_cons, List.map_nil]
        rw [List.nodup_append_comm, List.singleton_append, List.nodup_cons]
        refine ⟨?_, h1⟩
        intro hmem
        obtain ⟨w, hw, heq⟩ := List.mem_map.mp hmem
        have hany := List.any_eq_false.mp ha1 w hw
        rw [heq] at hany
        simp at hany
      · simp only [List.map_append, List.map_cons, List.map_nil]
        rw [List.nodup_append_comm, List.singleton_append, List.nodup_cons]
        refine ⟨?_, h2⟩
        intro hmem
        obtain ⟨w, hw, heq⟩ := List.mem_map.mp hmem
        have hany := List.any_eq_false.mp ha2 w hw
        rw [heq] at hany
        simp at hany

/-- Every one of the six operations preserves the uniqueness invariant. -/
theorem step_preserves_users_distinct (pwhash : JVal → String) (db : DB)
    (op : Op) (h : users_distinct db) :
    users_distinct (step pwhash db op) := by
  cases op with
  | opRegister data => exact register_preserves_users_distinct pwhash db data h
  | opLogin data => exact h
  | opGetUserTasks user_id => exact h
  | opAddTask data =>
    unfold users_distinct
    rw [step, add_task_users_eq]
    exact h
  | opUpdateTask task_id data =>
    unfold users_distinct
    rw [step, update_task_users_eq]
    exact h
  | opDeleteTask task_id =>
    unfold users_distinct
    rw [step, delete_task_users_eq]
    exact h

/-- C8: in every store reachable from the empty store by any sequence of
the six exposed operations, usernames are pairwise distinct across users
and emails are pairwise distinct across users: registration is the only
operation inserting a user and it inserts only after its duplicate check
finds no match. -/
theorem reachable_users_distinct (pwhash : JVal → String) (ops : List Op) :
    users_distinct (run pwhash ops) := by
  have key : ∀ (l : List Op) (db : DB), users_distinct db →
      users_distinct (l.foldl (step pwhash) db) := by
    intro l
    induction l with
    | nil =>
      intro db h
      exact h
    | cons op rest ih =>
      intro db h
      exact ih _ (step_preserves_users_distinct pwhash db op h)
  exact key ops DB.empty ⟨List.nodup_nil, List.nodup_nil⟩

end TaskFlex
